import Mathlib

/-!
Shallow embedding of the redemption service of `go-loyalty-benefits`
(`internal` redemption package: `CreateRedemption`, `processRedemptionSaga`,
`failRedemption`, `AuthMiddleware`, `Routes`, and the database helpers), with
the theorems that settle the specification claims about the redemption saga.

Modelling conventions:
- `time.Now()` and `uuid.New().String()` are drawn from a deterministic
  counter (`Gen`); only freshness and order matter to the claims.
- The collaborator calls of the saga (`validateBenefit`, `checkUserPoints`,
  `deductPoints`, `callPartnerGateway`, `reversePointsDeduction`,
  `updateRedemption`, and the two Kafka emit helpers) are stubs in the source
  that always succeed after logging.  The coordinator's own control flow,
  which is real code, is embedded over an environment `SagaEnv` giving each
  call's outcome, so that the error-handling branches of the coordinator are
  reachable; the all-success environment `stubEnv` is the literal source.
- `go error` values are `Except String`; a `nil` error is `Except.ok`.
-/

namespace LoyaltyBenefits

/-- Deterministic counter standing for the process clock and uuid source. -/
structure Gen where
  tick : Nat
deriving DecidableEq

/-- Model of `uuid.New().String()`: a string fresh in the counter. -/
def freshId (n : Nat) : String :=
  "uuid-" ++ toString n

/-- The `Redemption` struct of the source (timestamps as counter values). -/
structure Redemption where
  id : String
  userID : String
  benefitID : String
  points : Int
  status : String
  idempotencyKey : String
  partnerRef : String
  errorMessage : String
  createdAt : Nat
  updatedAt : Nat
  completedAt : Option Nat
deriving DecidableEq

/-- The `RedemptionCompletedEvent` struct of the source. -/
structure RedemptionCompletedEvent where
  eventID : String
  userID : String
  benefitID : String
  points : Int
  partnerRef : String
  timestamp : Nat
deriving DecidableEq

/-- The `RedemptionFailedEvent` struct of the source. -/
structure RedemptionFailedEvent where
  eventID : String
  userID : String
  benefitID : String
  points : Int
  errorMessage : String
  timestamp : Nat
deriving DecidableEq

/-- Whether a Go-style call result is a `nil` error. -/
def isOk : Except String Unit → Bool
  | Except.ok _ => true
  | Except.error _ => false

/-- Outcomes of the collaborator calls made by the saga coordinator.  In the
source every one of these is a stub that returns `nil` (see `stubEnv`); the
environment generalises them to the outcomes the coordinator's error
branches handle. -/
structure SagaEnv where
  validateBenefit : String → Except String Unit
  checkUserPoints : String → Int → Except String Unit
  deductPoints : String → Int → Except String Unit
  callPartnerGateway : Redemption → Except String String
  reversePointsDeduction : String → Int → Except String Unit
  updateRedemption : Redemption → Except String Unit
  emitCompleted : RedemptionCompletedEvent → Except String Unit
  emitFailed : RedemptionFailedEvent → Except String Unit

deriving instance DecidableEq for Except

/-- One observable call made while the saga runs; the `Bool` flag records
whether the collaborator reported success. -/
inductive Action where
  | validateBenefit (benefitID : String) (ok : Bool)
  | checkUserPoints (userID : String) (points : Int) (ok : Bool)
  | deductPoints (userID : String) (points : Int) (ok : Bool)
  | callPartnerGateway (redemptionID : String) (result : Except String String)
  | reversePointsDeduction (userID : String) (points : Int) (ok : Bool)
  | updateRedemption (rec : Redemption) (ok : Bool)
  | emitCompletedEvent (e : RedemptionCompletedEvent) (ok : Bool)
  | emitFailedEvent (e : RedemptionFailedEvent) (ok : Bool)
deriving DecidableEq

/-- Record written by `failRedemption`: `status`, `errorMessage` and
`updatedAt` change; `completedAt` is not touched. -/
def failedRecord (g : Gen) (r : Redemption) (errorMessage : String) :
    Redemption :=
  { r with status := "failed", errorMessage := errorMessage,
           updatedAt := g.tick }

/-- Event built by `failRedemption` (its fields other than the error are
read from the redemption, which the status mutation does not change). -/
def failedEvent (g : Gen) (r : Redemption) (errorMessage : String) :
    RedemptionFailedEvent :=
  { eventID := freshId (g.tick + 1), userID := r.userID,
    benefitID := r.benefitID, points := r.points,
    errorMessage := errorMessage, timestamp := g.tick + 2 }

/-- Embeds `failRedemption` of the source: set
`status`/`errorMessage`/`updatedAt`, write the record (a write error is only
logged), then emit a `RedemptionFailedEvent` (an emit error is only
logged).  `completedAt` is not touched. -/
def failRedemption (env : SagaEnv) (g : Gen) (r : Redemption)
    (errorMessage : String) : Redemption × List Action × Gen :=
  let r1 := failedRecord g r errorMessage
  let updOk := isOk (env.updateRedemption r1)
  let ev := failedEvent g r errorMessage
  let emOk := isOk (env.emitFailed ev)
  (r1, [Action.updateRedemption r1 updOk, Action.emitFailedEvent ev emOk],
    ⟨g.tick + 3⟩)

/-- Embeds `processRedemptionSaga` of the source, step for step:
1. validate benefit, 2. check the user's points, 3. deduct the points,
4. call the partner gateway — on failure the deduction reversal is attempted
with its result discarded, then `failRedemption` — 5. mark the redemption
completed (a write error is only logged), 6. emit the completed event (an
emit error is only logged). -/
def processRedemptionSaga (env : SagaEnv) (g : Gen) (r : Redemption) :
    Redemption × List Action × Gen :=
  match env.validateBenefit r.benefitID with
  | Except.error e =>
      let res := failRedemption env g r e
      (res.1, Action.validateBenefit r.benefitID false :: res.2.1, res.2.2)
  | Except.ok _ =>
  match env.checkUserPoints r.userID r.points with
  | Except.error e =>
      let res := failRedemption env g r e
      (res.1, Action.validateBenefit r.benefitID true ::
        Action.checkUserPoints r.userID r.points false :: res.2.1, res.2.2)
  | Except.ok _ =>
  match env.deductPoints r.userID r.points with
  | Except.error e =>
      let res := failRedemption env g r e
      (res.1, Action.validateBenefit r.benefitID true ::
        Action.checkUserPoints r.userID r.points true ::
        Action.deductPoints r.userID r.points false :: res.2.1, res.2.2)
  | Except.ok _ =>
  match env.callPartnerGateway r with
  | Except.error e =>
      let revOk := isOk (env.reversePointsDeduction r.userID r.points)
      let res := failRedemption env g r e
      (res.1, Action.validateBenefit r.benefitID true ::
        Action.checkUserPoints r.userID r.points true ::
        Action.deductPoints r.userID r.points true ::
        Action.callPartnerGateway r.id (Except.error e) ::
        Action.reversePointsDeduction r.userID r.points revOk :: res.2.1,
        res.2.2)
  | Except.ok partnerRef =>
      let r1 : Redemption :=
        { r with status := "completed", partnerRef := partnerRef,
                 completedAt := some g.tick, updatedAt := g.tick + 1 }
      let updOk := isOk (env.updateRedemption r1)
      let ev : RedemptionCompletedEvent :=
        { eventID := freshId (g.tick + 2), userID := r1.userID,
          benefitID := r1.benefitID, points := r1.points,
          partnerRef := partnerRef, timestamp := g.tick + 3 }
      let emOk := isOk (env.emitCompleted ev)
      (r1, [Action.validateBenefit r.benefitID true,
            Action.checkUserPoints r.userID r.points true,
            Action.deductPoints r.userID r.points true,
            Action.callPartnerGateway r.id (Except.ok partnerRef),
            Action.updateRedemption r1 updOk,
            Action.emitCompletedEvent ev emOk], ⟨g.tick + 4⟩)

/-- The literal source environment: every collaborator is a stub that logs
and returns `nil`; the gateway returns a fresh `VENDOR-` reference. -/
def stubEnv : SagaEnv where
  validateBenefit := fun _ => Except.ok ()
  checkUserPoints := fun _ _ => Except.ok ()
  deductPoints := fun _ _ => Except.ok ()
  callPartnerGateway := fun _ => Except.ok "VENDOR-stub"
  reversePointsDeduction := fun _ _ => Except.ok ()
  updateRedemption := fun _ => Except.ok ()
  emitCompleted := fun _ => Except.ok ()
  emitFailed := fun _ => Except.ok ()

/-- The persisted redemption records (the Redemption Repository). -/
structure Store where
  redemptions : List Redemption
deriving DecidableEq

/-- Embeds `getRedemptionByKey` of the source: with or without a database handle it
returns the error `not implemented`; the idempotency lookup never finds an
existing redemption. -/
def getRedemptionByKey (store : Store) (idempotencyKey : String) :
    Except String Redemption :=
  Except.error "not implemented"

/-- Modelled from the spec: `saveRedemption` in the source is a TODO stub
(without a database handle it logs `Would save redemption` and returns `nil`
with no durable write; with one it returns `not implemented`).  The spec's
Redemption Repository durably stores the record, modelled as appending it to
the store. -/
def saveRedemption (store : Store) (r : Redemption) : Store :=
  { redemptions := store.redemptions ++ [r] }

/-- Outcome of the `CreateRedemption` handler, after JSON decoding. -/
inductive CreateResult where
  | badRequest (msg : String)
  | okExisting (redemptionID : String) (status : String) (message : String)
  | accepted (redemptionID : String) (status : String) (message : String)
  | internalError (msg : String)
deriving DecidableEq

/-- Fresh record built by `CreateRedemption` for a previously unseen
idempotency key. -/
def newRedemption (g : Gen) (userID : String) (benefitID : String)
    (points : Int) (idempotencyKey : String) : Redemption :=
  { id := freshId g.tick, userID := userID, benefitID := benefitID,
    points := points, status := "requested",
    idempotencyKey := idempotencyKey, partnerRef := "",
    errorMessage := "", createdAt := g.tick + 1,
    updatedAt := g.tick + 2, completedAt := none }

/-- Embeds `CreateRedemption` of the source, after the middleware and JSON
decoding: validate `benefitID`/`points`, require the `Idempotency-Key`
header, consult `getRedemptionByKey` (returning the existing redemption's
id and status when it finds one), otherwise create a `requested` record,
save it, and spawn `processRedemptionSaga` on it (the `Option Redemption`
component is the argument of that spawned goroutine; `none` means no saga
was started). -/
def createRedemption (store : Store) (g : Gen) (userID : String)
    (benefitID : String) (points : Int) (idempotencyKey : String) :
    CreateResult × Store × Gen × Option Redemption :=
  if benefitID = "" ∨ points ≤ 0 then
    (CreateResult.badRequest "Benefit ID and points are required",
      store, g, none)
  else if idempotencyKey = "" then
    (CreateResult.badRequest "Idempotency-Key header is required",
      store, g, none)
  else
    match getRedemptionByKey store idempotencyKey with
    | Except.ok existing =>
        (CreateResult.okExisting existing.id existing.status
          "Redemption already exists", store, g, none)
    | Except.error _ =>
        let r := newRedemption g userID benefitID points idempotencyKey
        let store1 := saveRedemption store r
        (CreateResult.accepted r.id "requested" "Redemption request accepted",
          store1, ⟨g.tick + 3⟩, some r)

/-- The request headers the redemption service reads. -/
structure Headers where
  xUserID : String
  authorization : String
  idempotencyKey : String
deriving DecidableEq

/-- Outcome of the authentication middleware. -/
inductive AuthResult where
  | unauthorized (msg : String)
  | authed (userID : String)
deriving DecidableEq

/-- Embeds `AuthMiddleware` of the redemption service: reject when the `X-User-ID`
header is empty, otherwise place the header value in the request context as
the user identity.  No other header is consulted. -/
def authMiddleware (h : Headers) : AuthResult :=
  if h.xUserID = "" then AuthResult.unauthorized "User ID required"
  else AuthResult.authed h.xUserID

/-- The three redemption endpoints registered by `Routes`. -/
inductive Endpoint where
  | createRedemption
  | getRedemption
  | listRedemptions
deriving DecidableEq

/-- Embeds `Routes` of the source: each of the three redemption endpoints is
wrapped in `AuthMiddleware`, so the identity check is the same for all. -/
def routeAuth (e : Endpoint) (h : Headers) : AuthResult :=
  match e with
  | Endpoint.createRedemption => authMiddleware h
  | Endpoint.getRedemption => authMiddleware h
  | Endpoint.listRedemptions => authMiddleware h

/-- Recognises an emitted-completed-event call in the trace. -/
def isCompletedEmit : Action → Bool
  | Action.emitCompletedEvent _ _ => true
  | _ => false

/-- Recognises an emitted-failed-event call in the trace. -/
def isFailedEmit : Action → Bool
  | Action.emitFailedEvent _ _ => true
  | _ => false

/-- Recognises a partner-gateway call in the trace. -/
def isGatewayCall : Action → Bool
  | Action.callPartnerGateway _ _ => true
  | _ => false

/-- Recognises a points-deduction call in the trace. -/
def isDeduct : Action → Bool
  | Action.deductPoints _ _ _ => true
  | _ => false

/-- Recognises a deduction-reversal call in the trace. -/
def isReverse : Action → Bool
  | Action.reversePointsDeduction _ _ _ => true
  | _ => false

/-- Recognises a points-availability check in the trace. -/
def isCheck : Action → Bool
  | Action.checkUserPoints _ _ _ => true
  | _ => false

/-- Recognises a durable redemption write in the trace. -/
def isUpdateWrite : Action → Bool
  | Action.updateRedemption _ _ => true
  | _ => false

/-- Status carried by a durable `updateRedemption` write, attempted or
not. -/
def statusOfWrite : Action → Option String
  | Action.updateRedemption rec _ => some rec.status
  | _ => none

/-- Status carried by a durable write the store acknowledged. -/
def recordedStatusOfWrite : Action → Option String
  | Action.updateRedemption rec ok => if ok then some rec.status else none
  | _ => none

/-- Event type of an emission the event log acknowledged. -/
def recordedEventTypeOf : Action → Option String
  | Action.emitCompletedEvent _ ok =>
      if ok then some "redemption.completed" else none
  | Action.emitFailedEvent _ ok =>
      if ok then some "redemption.failed" else none
  | _ => none

/-- Statuses passed to the durable `updateRedemption` write, in order. -/
def updateStatuses (acts : List Action) : List String :=
  acts.filterMap statusOfWrite

/-- Statuses of the `updateRedemption` writes the store acknowledged. -/
def recordedStatuses (acts : List Action) : List String :=
  acts.filterMap recordedStatusOfWrite

/-- Event types whose emission the event log acknowledged. -/
def recordedEventTypes (acts : List Action) : List String :=
  acts.filterMap recordedEventTypeOf

/-- Modelled from the spec: the Balance Ledger's reaction to the saga's
successful deduct and reverse calls (`deductPoints` and
`reversePointsDeduction` are TODO stubs in the source).  A successful
deduction subtracts the points from the user's balance; a successful
reversal adds them back. -/
def applyAction (balance : Int) : Action → Int
  | Action.deductPoints _ p ok => if ok then balance - p else balance
  | Action.reversePointsDeduction _ p ok => if ok then balance + p else balance
  | _ => balance

/-- The user's balance after the ledger effects of a saga trace. -/
def runLedger (balance : Int) (acts : List Action) : Int :=
  acts.foldl applyAction balance

/-- Modelled from the spec: `checkUserPoints` in the source is a TODO stub
(`Would check user ... points`); per the spec the Balance Ledger reports
insufficient balance exactly when the user's available balance is below the
requested points, as a permanent (non-retried) failure. -/
def ledgerCheckPoints (balance : Int) (_userID : String) (points : Int) :
    Except String Unit :=
  if balance < points then Except.error "insufficient balance"
  else Except.ok ()

/-- Naive substring test, used to state what an error message mentions. -/
def mentions (s : String) (sub : String) : Bool :=
  s.data.tails.any fun t => sub.data.isPrefixOf t

/-- A concrete requested redemption, as `CreateRedemption` would build it. -/
def r0 : Redemption :=
  { id := "uuid-0", userID := "user-1", benefitID := "benefit-1",
    points := 100, status := "requested", idempotencyKey := "k1",
    partnerRef := "", errorMessage := "", createdAt := 1, updatedAt := 2,
    completedAt := none }

/-- Environment in which the benefit validation fails. -/
def benefitNotFoundEnv : SagaEnv :=
  { stubEnv with validateBenefit := fun _ => Except.error "benefit not found" }

/-- Environment in which the benefit validation fails and the durable
redemption write also fails. -/
def dbDownEnv : SagaEnv :=
  { benefitNotFoundEnv with
      updateRedemption := fun _ => Except.error "db down" }

/-- Environment in which the partner gateway call fails. -/
def gatewayFailEnv : SagaEnv :=
  { stubEnv with
      callPartnerGateway := fun _ => Except.error "partner unavailable" }

/-- Environment in which the gateway call fails and the deduction reversal
also fails. -/
def reverseFailEnv : SagaEnv :=
  { gatewayFailEnv with
      reversePointsDeduction := fun _ _ => Except.error "ledger down" }

/-- Environment whose points-availability check is the spec-modelled ledger
check at a balance of 50 points. -/
def lowBalanceEnv : SagaEnv :=
  { stubEnv with checkUserPoints := ledgerCheckPoints 50 }

/-- C7: every inbound redemption request with an empty benefit id,
non-positive points, or a missing idempotency key is rejected synchronously
with a bad-request (invalid request) error and has no effect: the store is
unchanged and no saga — hence no ledger call — is started. -/
theorem claim7_validation_rejects (store : Store) (g : Gen) (userID : String)
    (benefitID : String) (points : Int) (idempotencyKey : String)
    (h : benefitID = "" ∨ points ≤ 0 ∨ idempotencyKey = "") :
    ((createRedemption store g userID benefitID points idempotencyKey).1 =
        CreateResult.badRequest "Benefit ID and points are required" ∨
      (createRedemption store g userID benefitID points idempotencyKey).1 =
        CreateResult.badRequest "Idempotency-Key header is required") ∧
    (createRedemption store g userID benefitID points idempotencyKey).2.1 =
      store ∧
    (createRedemption store g userID benefitID points idempotencyKey).2.2.2 =
      none := by
  by_cases hb : benefitID = "" ∨ points ≤ 0
  · simp [createRedemption, hb]
  · rcases h with h | h | h
    · exact absurd (Or.inl h) hb
    · exact absurd (Or.inr h) hb
    · simp [createRedemption, hb, h]

/-- Witness for C7 at a concrete empty-benefit request. -/
theorem claim7_witness :
    ((createRedemption ⟨[]⟩ ⟨0⟩ "user-1" "" 100 "k1").1 =
        CreateResult.badRequest "Benefit ID and points are required" ∨
      (createRedemption ⟨[]⟩ ⟨0⟩ "user-1" "" 100 "k1").1 =
        CreateResult.badRequest "Idempotency-Key header is required") ∧
    (createRedemption ⟨[]⟩ ⟨0⟩ "user-1" "" 100 "k1").2.1 = (⟨[]⟩ : Store) ∧
    (createRedemption ⟨[]⟩ ⟨0⟩ "user-1" "" 100 "k1").2.2.2 = none :=
  claim7_validation_rejects ⟨[]⟩ ⟨0⟩ "user-1" "" 100 "k1" (Or.inl rfl)

/-- C8: with the spec-modelled ledger availability check, requesting more
points than the balance holds makes the saga end immediately in `failed`
with the insufficient-balance message; the partner gateway is never called,
no deduction happens, and the availability check runs exactly once (no
retry). -/
theorem claim8_insufficient_balance (env : SagaEnv) (g : Gen)
    (r : Redemption) (balance : Int)
    (henv : env.checkUserPoints = ledgerCheckPoints balance)
    (hv : env.validateBenefit r.benefitID = Except.ok ())
    (hlow : balance < r.points) :
    (processRedemptionSaga env g r).1.status = "failed" ∧
    (processRedemptionSaga env g r).1.errorMessage = "insufficient balance" ∧
    (processRedemptionSaga env g r).2.1.filter isGatewayCall = [] ∧
    (processRedemptionSaga env g r).2.1.filter isDeduct = [] ∧
    ((processRedemptionSaga env g r).2.1.filter isCheck).length = 1 := by
  have hc : env.checkUserPoints r.userID r.points =
      Except.error "insufficient balance" := by
    rw [henv]; simp [ledgerCheckPoints, hlow]
  simp [processRedemptionSaga, failRedemption, failedRecord, failedEvent,
    hv, hc, isGatewayCall, isDeduct, isCheck]

/-- Witness for C8: a balance of 50 points against a 100-point request. -/
theorem claim8_witness :
    (processRedemptionSaga lowBalanceEnv ⟨0⟩ r0).1.status = "failed" ∧
    (processRedemptionSaga lowBalanceEnv ⟨0⟩ r0).1.errorMessage =
      "insufficient balance" ∧
    (processRedemptionSaga lowBalanceEnv ⟨0⟩ r0).2.1.filter isGatewayCall =
      [] ∧
    (processRedemptionSaga lowBalanceEnv ⟨0⟩ r0).2.1.filter isDeduct = [] ∧
    ((processRedemptionSaga lowBalanceEnv ⟨0⟩ r0).2.1.filter isCheck).length =
      1 :=
  claim8_insufficient_balance lowBalanceEnv ⟨0⟩ r0 50 rfl rfl (by decide)

/-- C10: every redemption endpoint rejects a request exactly when the
`X-User-ID` header is empty; otherwise the header value itself is the
authenticated identity, verbatim, and no other header — in particular no
token — takes part in the decision. -/
theorem claim10_auth_header (e : Endpoint) (h : Headers) :
    (routeAuth e h = AuthResult.unauthorized "User ID required" ↔
      h.xUserID = "") ∧
    (h.xUserID ≠ "" → routeAuth e h = AuthResult.authed h.xUserID) ∧
    (∀ h2 : Headers, h2.xUserID = h.xUserID →
      routeAuth e h2 = routeAuth e h) := by
  have hr : ∀ h3 : Headers, routeAuth e h3 = authMiddleware h3 := by
    intro h3; cases e <;> rfl
  refine ⟨?_, ?_, ?_⟩
  · rw [hr]
    by_cases hx : h.xUserID = "" <;> simp [authMiddleware, hx]
  · intro hx
    rw [hr]; simp [authMiddleware, hx]
  · intro h2 hh
    rw [hr, hr]; simp only [authMiddleware, hh]

/-- Witness for C10 at a concrete non-empty header. -/
theorem claim10_witness :
    routeAuth Endpoint.createRedemption ⟨"alice", "token-ignored", "k1"⟩ =
      AuthResult.authed "alice" :=
  (claim10_auth_header Endpoint.createRedemption
    ⟨"alice", "token-ignored", "k1"⟩).2.1 (by decide)

/-- Counterexample to C9: a redemption that fails (here: the benefit
validation fails) reaches the terminal `failed` status with `completed_at`
still null — `failRedemption` never sets it. -/
theorem claim9_failed_completed_at_none :
    (processRedemptionSaga benefitNotFoundEnv ⟨0⟩ r0).1.status = "failed" ∧
    (processRedemptionSaga benefitNotFoundEnv ⟨0⟩ r0).1.completedAt =
      none := by
  decide

/-- C9 (amended): `completed_at` is null at creation and is set exactly when
the redemption completes successfully; a redemption that ends `failed`
keeps a null `completed_at`. -/
theorem claim9_completed_at (env : SagaEnv) (g : Gen) (r : Redemption)
    (h : r.completedAt = none) :
    ((processRedemptionSaga env g r).1.status = "completed" →
      (processRedemptionSaga env g r).1.completedAt = some g.tick) ∧
    ((processRedemptionSaga env g r).1.status = "failed" →
      (processRedemptionSaga env g r).1.completedAt = none) ∧
    (∀ store g2 userID benefitID points idempotencyKey nr,
      (createRedemption store g2 userID benefitID points
        idempotencyKey).2.2.2 = some nr →
      nr.status = "requested" ∧ nr.completedAt = none) := by
  have hsaga :
      ((processRedemptionSaga env g r).1.status = "completed" ∧
        (processRedemptionSaga env g r).1.completedAt = some g.tick) ∨
      ((processRedemptionSaga env g r).1.status = "failed" ∧
        (processRedemptionSaga env g r).1.completedAt = none) := by
    rcases hv : env.validateBenefit r.benefitID with e | u
    · right
      simp [processRedemptionSaga, failRedemption, failedRecord, hv, h]
    · rcases hc : env.checkUserPoints r.userID r.points with e | u
      · right
        simp [processRedemptionSaga, failRedemption, failedRecord, hv, hc, h]
      · rcases hd : env.deductPoints r.userID r.points with e | u
        · right
          simp [processRedemptionSaga, failRedemption, failedRecord,
            hv, hc, hd, h]
        · rcases hg : env.callPartnerGateway r with e | pref
          · right
            simp [processRedemptionSaga, failRedemption, failedRecord,
              hv, hc, hd, hg, h]
          · left
            simp [processRedemptionSaga, hv, hc, hd, hg]
  refine ⟨?_, ?_, ?_⟩
  · intro hst
    rcases hsaga with ⟨h1, h2⟩ | ⟨h1, h2⟩
    · exact h2
    · exact absurd (hst.symm.trans h1) (by decide)
  · intro hst
    rcases hsaga with ⟨h1, h2⟩ | ⟨h1, h2⟩
    · exact absurd (hst.symm.trans h1) (by decide)
    · exact h2
  · intro store g2 userID benefitID points idempotencyKey nr hnr
    by_cases hb : benefitID = "" ∨ points ≤ 0
    · simp [createRedemption, hb] at hnr
    · by_cases hk : idempotencyKey = ""
      · simp [createRedemption, hb, hk] at hnr
      · simp [createRedemption, getRedemptionByKey, hb, hk] at hnr
        rw [← hnr]
        exact ⟨rfl, rfl⟩

/-- Witness for C9 (amended) at a concrete successful run. -/
theorem claim9_witness :
    (processRedemptionSaga stubEnv ⟨0⟩ r0).1.completedAt = some 0 :=
  (claim9_completed_at stubEnv ⟨0⟩ r0 rfl).1 (by decide)

/-- Counterexample to C4: a saga that succeeds end to end persists no
intermediate status — the statuses recorded after the initial `requested`
record are exactly `[completed]`, skipping `points_reserving` and
`fulfilling` entirely. -/
theorem claim4_no_intermediate_status :
    (processRedemptionSaga stubEnv ⟨0⟩ r0).1.status = "completed" ∧
    recordedStatuses (processRedemptionSaga stubEnv ⟨0⟩ r0).2.1 =
      ["completed"] ∧
    "points_reserving" ∉
      recordedStatuses (processRedemptionSaga stubEnv ⟨0⟩ r0).2.1 := by
  decide

/-- C4 (amended): the saga performs exactly one durable status write, the
terminal one; the persisted status moves directly from `requested` to
`completed` or `failed`, with no intermediate `points_reserving` or
`fulfilling` write before it. -/
theorem claim4_single_terminal_write (env : SagaEnv) (g : Gen)
    (r : Redemption) :
    ((processRedemptionSaga env g r).1.status = "completed" ∧
      updateStatuses (processRedemptionSaga env g r).2.1 = ["completed"]) ∨
    ((processRedemptionSaga env g r).1.status = "failed" ∧
      updateStatuses (processRedemptionSaga env g r).2.1 = ["failed"]) := by
  rcases hv : env.validateBenefit r.benefitID with e | u
  · right
    simp [processRedemptionSaga, failRedemption, failedRecord,
      updateStatuses, statusOfWrite, hv]
  · rcases hc : env.checkUserPoints r.userID r.points with e | u
    · right
      simp [processRedemptionSaga, failRedemption, failedRecord,
        updateStatuses, statusOfWrite, hv, hc]
    · rcases hd : env.deductPoints r.userID r.points with e | u
      · right
        simp [processRedemptionSaga, failRedemption, failedRecord,
          updateStatuses, statusOfWrite, hv, hc, hd]
      · rcases hg : env.callPartnerGateway r with e | pref
        · right
          simp [processRedemptionSaga, failRedemption, failedRecord,
            updateStatuses, statusOfWrite, hv, hc, hd, hg]
        · left
          simp [processRedemptionSaga, updateStatuses, statusOfWrite,
            hv, hc, hd, hg]

/-- Counterexample to C1: with the benefit validation failing and the
durable redemption write failing, the run ends in the terminal `failed`
status and its failure event is recorded while the status change is not:
the event and the state change are separate, non-atomic operations. -/
theorem claim1_not_atomic :
    (processRedemptionSaga dbDownEnv ⟨0⟩ r0).1.status = "failed" ∧
    recordedStatuses (processRedemptionSaga dbDownEnv ⟨0⟩ r0).2.1 = [] ∧
    recordedEventTypes (processRedemptionSaga dbDownEnv ⟨0⟩ r0).2.1 =
      ["redemption.failed"] := by
  decide

/-- C1 (amended): every saga run ends terminal and attempts exactly one
event emission, of the type matching the terminal status and none of the
other type; the emission is issued after the status write as a separate
operation, not in one atomic unit with it. -/
theorem claim1_terminal_event_attempt (env : SagaEnv) (g : Gen)
    (r : Redemption) :
    ((processRedemptionSaga env g r).1.status = "completed" ∧
      ((processRedemptionSaga env g r).2.1.filter isCompletedEmit).length =
        1 ∧
      (processRedemptionSaga env g r).2.1.filter isFailedEmit = []) ∨
    ((processRedemptionSaga env g r).1.status = "failed" ∧
      ((processRedemptionSaga env g r).2.1.filter isFailedEmit).length = 1 ∧
      (processRedemptionSaga env g r).2.1.filter isCompletedEmit = []) := by
  rcases hv : env.validateBenefit r.benefitID with e | u
  · right
    simp [processRedemptionSaga, failRedemption, failedRecord, failedEvent,
      isFailedEmit, isCompletedEmit, hv]
  · rcases hc : env.checkUserPoints r.userID r.points with e | u
    · right
      simp [processRedemptionSaga, failRedemption, failedRecord, failedEvent,
        isFailedEmit, isCompletedEmit, hv, hc]
    · rcases hd : env.deductPoints r.userID r.points with e | u
      · right
        simp [processRedemptionSaga, failRedemption, failedRecord,
          failedEvent, isFailedEmit, isCompletedEmit, hv, hc, hd]
      · rcases hg : env.callPartnerGateway r with e | pref
        · right
          simp [processRedemptionSaga, failRedemption, failedRecord,
            failedEvent, isFailedEmit, isCompletedEmit, hv, hc, hd, hg]
        · left
          simp [processRedemptionSaga, isFailedEmit, isCompletedEmit,
            hv, hc, hd, hg]

/-- First request of the key-reuse scenario: key `k1`, 100 points. -/
def firstRequest : CreateResult × Store × Gen × Option Redemption :=
  createRedemption ⟨[]⟩ ⟨0⟩ "user-1" "benefit-1" 100 "k1"

/-- Second request reusing key `k1` with a different payload
(200 points), issued after the first. -/
def secondRequestOtherPayload :
    CreateResult × Store × Gen × Option Redemption :=
  createRedemption firstRequest.2.1 firstRequest.2.2.1
    "user-1" "benefit-1" 200 "k1"

/-- Second request repeating the first verbatim (same user, benefit,
points and key), issued after the first. -/
def secondRequestSamePayload :
    CreateResult × Store × Gen × Option Redemption :=
  createRedemption firstRequest.2.1 firstRequest.2.2.1
    "user-1" "benefit-1" 100 "k1"

/-- Counterexample to C2: a second request with the same idempotency key
but different points is not rejected — it is accepted, creates a second
Redemption record, and starts a second saga. -/
theorem claim2_different_payload_accepted :
    secondRequestOtherPayload.1 =
      CreateResult.accepted "uuid-3" "requested"
        "Redemption request accepted" ∧
    secondRequestOtherPayload.2.1.redemptions.length = 2 ∧
    secondRequestOtherPayload.2.2.2.isSome = true := by
  decide

/-- C2 (amended): every syntactically valid request — in particular a
request reusing an idempotency key with a different payload — is accepted
and creates a fresh Redemption: the idempotency lookup of the source always
fails with `not implemented`, and no conflict response exists in the
code. -/
theorem claim2_no_conflict (store : Store) (g : Gen) (userID : String)
    (benefitID : String) (points : Int) (idempotencyKey : String)
    (hb : benefitID ≠ "") (hp : 0 < points) (hk : idempotencyKey ≠ "") :
    createRedemption store g userID benefitID points idempotencyKey =
      (CreateResult.accepted (freshId g.tick) "requested"
        "Redemption request accepted",
       ⟨store.redemptions ++
         [newRedemption g userID benefitID points idempotencyKey]⟩,
       ⟨g.tick + 3⟩,
       some (newRedemption g userID benefitID points idempotencyKey)) := by
  have hp2 : ¬points ≤ 0 := not_le.mpr hp
  simp [createRedemption, getRedemptionByKey, saveRedemption,
    newRedemption, hb, hk, hp2]

/-- Witness for C2 (amended): the concrete different-payload second
request is accepted with a fresh id and record. -/
theorem claim2_witness :
    createRedemption firstRequest.2.1 firstRequest.2.2.1
        "user-1" "benefit-1" 200 "k1" =
      (CreateResult.accepted (freshId firstRequest.2.2.1.tick) "requested"
        "Redemption request accepted",
       ⟨firstRequest.2.1.redemptions ++
         [newRedemption firstRequest.2.2.1 "user-1" "benefit-1" 200 "k1"]⟩,
       ⟨firstRequest.2.2.1.tick + 3⟩,
       some (newRedemption firstRequest.2.2.1 "user-1" "benefit-1"
         200 "k1")) :=
  claim2_no_conflict firstRequest.2.1 firstRequest.2.2.1
    "user-1" "benefit-1" 200 "k1" (by decide) (by decide) (by decide)

/-- C3 evaluated at its failing input: two identical sequential requests
(same user, benefit, points and idempotency key) both come back accepted
with distinct redemption ids, two Redemption records exist afterwards, and
the second request starts its own saga (its own deduction) — the source's
idempotency lookup never finds the first record. -/
theorem claim3_duplicate_records :
    firstRequest.1 =
      CreateResult.accepted "uuid-0" "requested"
        "Redemption request accepted" ∧
    secondRequestSamePayload.1 =
      CreateResult.accepted "uuid-3" "requested"
        "Redemption request accepted" ∧
    ("uuid-3" : String) ≠ "uuid-0" ∧
    secondRequestSamePayload.2.1.redemptions.length = 2 ∧
    secondRequestSamePayload.2.2.2.isSome = true := by
  decide

/-- C5: when the deduction has succeeded and the partner fulfillment fails,
the coordinator invokes the ledger reversal before writing the failed
record, the end state is `failed` with the fulfillment error, a successful
reversal restores the balance to its pre-request value, and the reversal is
invoked in no other situation. -/
theorem claim5_compensation (env : SagaEnv) (g : Gen) (r : Redemption)
    (e : String)
    (hv : env.validateBenefit r.benefitID = Except.ok ())
    (hc : env.checkUserPoints r.userID r.points = Except.ok ())
    (hd : env.deductPoints r.userID r.points = Except.ok ())
    (hg : env.callPartnerGateway r = Except.error e)
    (hr : env.reversePointsDeduction r.userID r.points = Except.ok ()) :
    (processRedemptionSaga env g r).1 = failedRecord g r e ∧
    (processRedemptionSaga env g r).2.1 =
      [Action.validateBenefit r.benefitID true,
       Action.checkUserPoints r.userID r.points true,
       Action.deductPoints r.userID r.points true,
       Action.callPartnerGateway r.id (Except.error e),
       Action.reversePointsDeduction r.userID r.points true,
       Action.updateRedemption (failedRecord g r e)
         (isOk (env.updateRedemption (failedRecord g r e))),
       Action.emitFailedEvent (failedEvent g r e)
         (isOk (env.emitFailed (failedEvent g r e)))] ∧
    (∀ balance : Int,
      runLedger balance (processRedemptionSaga env g r).2.1 = balance) ∧
    (∀ env2 : SagaEnv, ∀ g2 : Gen, ∀ r2 : Redemption, ∀ a : Action,
      a ∈ (processRedemptionSaga env2 g2 r2).2.1 → isReverse a = true →
      env2.validateBenefit r2.benefitID = Except.ok () ∧
      env2.checkUserPoints r2.userID r2.points = Except.ok () ∧
      env2.deductPoints r2.userID r2.points = Except.ok () ∧
      ∃ e2, env2.callPartnerGateway r2 = Except.error e2) := by
  have htrace : (processRedemptionSaga env g r).2.1 =
      [Action.validateBenefit r.benefitID true,
       Action.checkUserPoints r.userID r.points true,
       Action.deductPoints r.userID r.points true,
       Action.callPartnerGateway r.id (Except.error e),
       Action.reversePointsDeduction r.userID r.points true,
       Action.updateRedemption (failedRecord g r e)
         (isOk (env.updateRedemption (failedRecord g r e))),
       Action.emitFailedEvent (failedEvent g r e)
         (isOk (env.emitFailed (failedEvent g r e)))] := by
    simp [processRedemptionSaga, failRedemption, hv, hc, hd, hg, hr, isOk]
  refine ⟨?_, htrace, ?_, ?_⟩
  · simp [processRedemptionSaga, failRedemption, hv, hc, hd, hg]
  · intro balance
    rw [htrace]
    simp [runLedger, applyAction]
  · intro env2 g2 r2 a ha hrev
    rcases h1 : env2.validateBenefit r2.benefitID with e1 | u1
    · exfalso
      simp [processRedemptionSaga, failRedemption, h1] at ha
      rcases ha with ha | ha | ha <;> subst ha <;> simp [isReverse] at hrev
    · rcases h2 : env2.checkUserPoints r2.userID r2.points with e2 | u2
      · exfalso
        simp [processRedemptionSaga, failRedemption, h1, h2] at ha
        rcases ha with ha | ha | ha | ha <;> subst ha <;>
          simp [isReverse] at hrev
      · rcases h3 : env2.deductPoints r2.userID r2.points with e3 | u3
        · exfalso
          simp [processRedemptionSaga, failRedemption, h1, h2, h3] at ha
          rcases ha with ha | ha | ha | ha | ha <;> subst ha <;>
            simp [isReverse] at hrev
        · rcases h4 : env2.callPartnerGateway r2 with e4 | p4
          · cases u1
            cases u2
            cases u3
            exact ⟨rfl, rfl, rfl, e4, rfl⟩
          · exfalso
            simp [processRedemptionSaga, h1, h2, h3, h4] at ha
            rcases ha with ha | ha | ha | ha | ha | ha <;> subst ha <;>
              simp [isReverse] at hrev

/-- Witness for C5 at a concrete gateway failure with successful reversal:
the run ends as the failed record and a balance of 500 is restored to
500. -/
theorem claim5_witness :
    (processRedemptionSaga gatewayFailEnv ⟨0⟩ r0).1 =
      failedRecord ⟨0⟩ r0 "partner unavailable" ∧
    runLedger 500 (processRedemptionSaga gatewayFailEnv ⟨0⟩ r0).2.1 = 500 :=
  ⟨(claim5_compensation gatewayFailEnv ⟨0⟩ r0 "partner unavailable"
      rfl rfl rfl rfl rfl).1,
   (claim5_compensation gatewayFailEnv ⟨0⟩ r0 "partner unavailable"
      rfl rfl rfl rfl rfl).2.2.1 500⟩

/-- Counterexample to C6: when the reversal itself fails (a gateway failure
followed by a failing ledger reversal), the redemption is marked `failed`
with the fulfillment error alone — the message notes no reconciliation, and
the reversal failure appears nowhere in the final record. -/
theorem claim6_no_reconciliation_note :
    (processRedemptionSaga reverseFailEnv ⟨0⟩ r0).1.status = "failed" ∧
    (processRedemptionSaga reverseFailEnv ⟨0⟩ r0).1.errorMessage =
      "partner unavailable" ∧
    mentions (processRedemptionSaga reverseFailEnv ⟨0⟩ r0).1.errorMessage
      "reconcil" = false ∧
    mentions (processRedemptionSaga reverseFailEnv ⟨0⟩ r0).1.errorMessage
      "ledger down" = false := by
  decide

/-- C6 (amended): after a successful reservation and a failed fulfillment
the redemption is marked `failed` with the fulfillment error message alone,
and the outcome of the reversal — success or failure — has no effect on the
final record, the recorded statuses, or the recorded events: a reversal
failure is silently discarded. -/
theorem claim6_reversal_failure_ignored (env : SagaEnv) (g : Gen)
    (r : Redemption) (e : String)
    (hv : env.validateBenefit r.benefitID = Except.ok ())
    (hc : env.checkUserPoints r.userID r.points = Except.ok ())
    (hd : env.deductPoints r.userID r.points = Except.ok ())
    (hg : env.callPartnerGateway r = Except.error e) :
    (processRedemptionSaga env g r).1 = failedRecord g r e ∧
    (∀ f : String → Int → Except String Unit,
      (processRedemptionSaga { env with reversePointsDeduction := f }
          g r).1 =
        (processRedemptionSaga env g r).1 ∧
      recordedStatuses (processRedemptionSaga
          { env with reversePointsDeduction := f } g r).2.1 =
        recordedStatuses (processRedemptionSaga env g r).2.1 ∧
      recordedEventTypes (processRedemptionSaga
          { env with reversePointsDeduction := f } g r).2.1 =
        recordedEventTypes (processRedemptionSaga env g r).2.1) := by
  constructor
  · simp [processRedemptionSaga, failRedemption, hv, hc, hd, hg]
  · intro f
    refine ⟨?_, ?_, ?_⟩ <;>
      simp [processRedemptionSaga, failRedemption, recordedStatuses,
        recordedEventTypes, recordedStatusOfWrite, recordedEventTypeOf,
        hv, hc, hd, hg]

/-- Witness for C6 (amended): a concretely failing reversal leaves the
final record identical to the one a successful reversal leaves. -/
theorem claim6_witness :
    (processRedemptionSaga
        { gatewayFailEnv with
            reversePointsDeduction := fun _ _ => Except.error "ledger down" }
        ⟨0⟩ r0).1 =
      (processRedemptionSaga gatewayFailEnv ⟨0⟩ r0).1 :=
  ((claim6_reversal_failure_ignored gatewayFailEnv ⟨0⟩ r0
      "partner unavailable" rfl rfl rfl rfl).2
    (fun _ _ => Except.error "ledger down")).1

end LoyaltyBenefits
